import Mathlib

/-!
Shallow embedding of the MYSQL-to-BigQuery ETL scripts
(`etl_mysql_to_bigquery.py`, `etl_daily_log.py`, `ti_db_inventory_to_BQ.py`)
and proofs of the specification claims about them.

A pandas `DataFrame` is modelled column-oriented: a list of columns, each a
name paired with its list of cell values (row order is the order of each
value list).  External effects (SQL queries, staging-file writes, BigQuery
job submissions, file deletions) are modelled as an event trace; the
outcomes of the external calls themselves are supplied by oracle functions
in an environment record.
-/

namespace ETL

/-- A cell value as it can appear in an extracted pandas DataFrame (after
the scripts' datetime-to-string normalisation). -/
inductive Value where
  | vInt  (n : Int)
  | vStr  (s : String)
  | vBool (b : Bool)
  | vNull
deriving Repr, DecidableEq

/-- Python truthiness used by `Series.astype(bool)`: nonzero ints and
nonempty strings are `True`; `NaN` coerces to `True`. A bool is unchanged. -/
def toBool : Value → Value
  | .vInt n  => .vBool (n != 0)
  | .vStr s  => .vBool (s != "")
  | .vBool b => .vBool b
  | .vNull   => .vBool true

/-- A DataFrame column: its label and its cell values in row order. -/
abbrev Col : Type := String × List Value

/-- A DataFrame: ordered list of labelled columns.  All columns of a
well-formed frame have the same number of cells. -/
abbrev DataFrame : Type := List Col

namespace DataFrame

/-- `df.empty` in pandas: true when the frame has no columns or no rows. -/
def isEmpty (df : DataFrame) : Bool :=
  df.all (fun c => c.2.isEmpty)

/-- The values of the first column labelled `c`, if any
(pandas `df[c]` for a unique label). -/
def findCol (c : String) (df : DataFrame) : Option (List Value) :=
  (df.find? (fun p => p.1 == c)).map (fun p => p.2)

end DataFrame

/-- `DataFrame.rename(columns=m)` on one label: renamed when the label is a
key of the mapper, untouched otherwise. -/
def lookupRename (m : List (String × String)) (n : String) : String :=
  match m.lookup n with
  | some v => v
  | none   => n

/-- `df.rename(columns=m)`: every column keeps its cells, labels are mapped
through the mapper. -/
def rename_cols (m : List (String × String)) (df : DataFrame) : DataFrame :=
  df.map (fun c => (lookupRename m c.1, c.2))

/-- The per-column `astype(bool)` loop: each column whose label is in `bs`
has all its cells coerced to booleans. -/
def coerce_bools (bs : List String) (df : DataFrame) : DataFrame :=
  df.map (fun c => if c.1 ∈ bs then (c.1, c.2.map toBool) else c)

/-- `df.drop(columns=ds, errors='ignore')`: columns whose label is in `ds`
are removed; absent labels are not an error. -/
def drop_columns (ds : List String) (df : DataFrame) : DataFrame :=
  df.filter (fun c => decide (c.1 ∉ ds))

/-- The boolean-column list shared by `etl_mysql_to_bigquery.transform_data`
(for `database_list`) and `ti_db_inventory_to_BQ.transform_data`
(for `servers_temp`). -/
def boolColumns : List String :=
  ["sun", "mon", "tue", "wed", "thu", "fri", "sat",
   "encrypted", "ssl", "backup", "load", "size", "active"]

/-- Rename map of `etl_mysql_to_bigquery.transform_data` for `daily_log`
(also used verbatim by `etl_daily_log.transform_data`). -/
def dailyLogRenamesEtl : List (String × String) :=
  [("backup_date", "BackupDate"), ("server", "Server"),
   ("database", "Database"), ("size", "Size"), ("state", "State"),
   ("last_update", "LastUpdate"), ("fileName", "FileName")]

/-- Rename map of `ti_db_inventory_to_BQ.transform_data` for `daily_log`
(no `fileName` entry; that column is dropped instead). -/
def dailyLogRenamesTi : List (String × String) :=
  [("backup_date", "BackupDate"), ("server", "Server"),
   ("database", "Database"), ("size", "Size"), ("state", "State"),
   ("last_update", "LastUpdate")]

/-- `transform_data` of `etl_mysql_to_bigquery.py`: boolean coercion for
`database_list`, the `daily_log` renames, identity for other tables. -/
def transform_data_etl (df : DataFrame) (table_name : String) : DataFrame :=
  let df1 := if table_name == "database_list" then coerce_bools boolColumns df else df
  if table_name == "daily_log" then rename_cols dailyLogRenamesEtl df1 else df1

/-- `transform_data` of `ti_db_inventory_to_BQ.py`: boolean coercion for
`servers_temp`; for `daily_log` the renames followed by dropping
`fileName`; identity for other tables. -/
def transform_data_ti (df : DataFrame) (table_name : String) : DataFrame :=
  let df1 := if table_name == "servers_temp" then coerce_bools boolColumns df else df
  if table_name == "daily_log" then
    drop_columns ["fileName"] (rename_cols dailyLogRenamesTi df1)
  else df1

/-- `transform_data` of `etl_daily_log.py`: unconditionally applies the
`daily_log` renames (the script handles only that one table). -/
def transform_data_hist (df : DataFrame) : DataFrame :=
  rename_cols dailyLogRenamesEtl df

/-- Labels appearing as rename-mapper keys. -/
def renameKeys (m : List (String × String)) : List String := m.map Prod.fst

/-- Labels appearing as rename-mapper targets. -/
def renameTargets (m : List (String × String)) : List String := m.map Prod.snd

/-- Every column label mentioned by `etl_mysql_to_bigquery.transform_data`
for the given table: its boolean-coercion list and its rename keys and
targets. -/
def touched_etl (tn : String) : List String :=
  (if tn == "database_list" then boolColumns else []) ++
  (if tn == "daily_log" then
    renameKeys dailyLogRenamesEtl ++ renameTargets dailyLogRenamesEtl else [])

/-- Every column label mentioned by `ti_db_inventory_to_BQ.transform_data`
for the given table: its boolean-coercion list, its rename keys and
targets, and the dropped `fileName` column. -/
def touched_ti (tn : String) : List String :=
  (if tn == "servers_temp" then boolColumns else []) ++
  (if tn == "daily_log" then
    renameKeys dailyLogRenamesTi ++ renameTargets dailyLogRenamesTi ++ ["fileName"]
   else [])

/-- Whether `ti_db_inventory_to_BQ.transform_data` keeps a column of the
given original label (only `fileName` of `daily_log` is dropped). -/
def keptByTi (tn : String) (c : Col) : Bool :=
  !(tn == "daily_log" && c.1 == "fileName")

/-- The row-selection predicate of an extraction query. -/
inductive Window where
  | lt (cutoff : String)
  | eq (day : String)
  | all
deriving Repr, DecidableEq

/-- Whether a row whose date-column value has date part `d` satisfies the
window. -/
def Window.selects : Window → String → Bool
  | .lt c, d => decide (d < c)
  | .eq x, d => d == x
  | .all, _  => true

/-- Window of `etl_daily_log.extract_from_mysql`: the fixed historical
cutoff `DATE(backup_date) < '2025-03-07'`. -/
def window_hist : Window := .lt "2025-03-07"

/-- Window of `etl_mysql_to_bigquery.extract_from_mysql`:
`DATE(date_column) = today` (default incremental mode). -/
def window_etl (today : String) : Window := .eq today

/-- Window of `ti_db_inventory_to_BQ.extract_from_mysql`: with `--daily`
the query is `DATE(backup_date) = yesterday`, but only for `backup_log`
and `daily_log`; every other table — and every table when `--daily` is not
given — is read unconditionally (`SELECT * FROM table`). -/
def window_ti (is_daily : Bool) (table_name : String) (yesterday : String) : Window :=
  if is_daily && (table_name == "backup_log" || table_name == "daily_log") then
    .eq yesterday
  else
    .all

/-- A source row: the date part of its date-column value, plus its cells. -/
abbrev SrcRow : Type := String × List (String × Value)

/-- The rows a windowed `SELECT * FROM t WHERE DATE(dateColumn) <op> day`
returns, in source order. -/
def selectRows (w : Window) (rows : List SrcRow) : List SrcRow :=
  rows.filter (fun r => w.selects r.1)

/-- Write disposition of a BigQuery load job. -/
inductive Disposition where
  | append
  | truncate
deriving Repr, DecidableEq

/-- One observable external effect of a run. -/
inductive Event where
  | extractQuery (table : String) (w : Window)
  | stagingWrite (table : String) (path : String) (batch : DataFrame)
  | bqLoad (table : String) (disposition : Disposition) (partitionField : Option String)
  | bqGetTable (table : String)
  | fileDelete (path : String)
  | cleanupSweep
deriving Repr, DecidableEq

/-- Staging-artifact path of `etl_mysql_to_bigquery.load_to_bigquery`:
`f"mysql_to_bq_{CURRENT_DATE}_{table_name}.json"`. -/
def etl_artifact_name (current_date table_name : String) : String :=
  "mysql_to_bq_" ++ current_date ++ "_" ++ table_name ++ ".json"

/-- Staging-artifact path of `etl_daily_log.load_to_bigquery`:
`f"mysql_to_bq_historical_{CURRENT_DATE}_{table_name}.json"`. -/
def hist_artifact_name (current_date table_name : String) : String :=
  "mysql_to_bq_historical_" ++ current_date ++ "_" ++ table_name ++ ".json"

/-- Staging-artifact path of `ti_db_inventory_to_BQ.load_to_bigquery`:
`tempfile.NamedTemporaryFile(suffix='.json')` — an OS-generated stem that
depends on neither the run date nor the table name, plus the suffix. -/
def ti_artifact_name (osStem : String) : String := osStem ++ ".json"

/-- `get_schema_from_config` (same in all three scripts): the declared
BigQuery schema, or `ValueError` when the table is not configured. -/
def get_schema_from_config (cfg : List (String × List (String × String)))
    (tn : String) : Except String (List (String × String)) :=
  match cfg.lookup tn with
  | none => .error ("No schema defined for table: " ++ tn)
  | some s => .ok s

/-- `write_disposition` of `ti_db_inventory_to_BQ.load_to_bigquery`:
`WRITE_APPEND if is_daily else WRITE_TRUNCATE`. -/
def disposition_ti (is_daily : Bool) : Disposition :=
  if is_daily then .append else .truncate

/-- Day partitioning of `ti_db_inventory_to_BQ.load_to_bigquery`: only
`daily_log` is partitioned, on `BackupDate`. -/
def partition_ti (tn : String) : Option String :=
  if tn == "daily_log" then some "BackupDate" else none

/-- Oracle environment for `ti_db_inventory_to_BQ.py`. -/
structure EnvTi where
  showTables : List String
  schema_config : List (String × List (String × String))
  extract : String → Except String DataFrame
  bqLoadResult : String → Except String Unit
  tempStem : String → String
  yesterday : String
  now : Nat
  files : List (String × Nat)
  removeOk : String → Bool

/-- Oracle environment for `etl_mysql_to_bigquery.py`. -/
structure EnvEtl where
  showTables : List String
  schema_config : List (String × List (String × String))
  extract : String → Except String DataFrame
  bqLoadResult : String → Except String Unit
  current_date : String
  today : String
  now : Nat
  files : List (String × Nat)
  removeOk : String → Bool

/-- Oracle environment for `etl_daily_log.py` (one fixed table, no
cleanup sweep). -/
structure EnvHist where
  schema_config : List (String × List (String × String))
  extract : Except String DataFrame
  bqLoadResult : Except String Unit
  current_date : String

/-- `ti_db_inventory_to_BQ.load_to_bigquery`: schema lookup, staging
write, synchronous load, artifact delete and row-count read on success.
There is no empty-batch check in this variant. -/
def load_to_bigquery_ti (env : EnvTi) (df : DataFrame) (tn : String)
    (is_daily : Bool) : List Event × Except String Unit :=
  match get_schema_from_config env.schema_config tn with
  | .error e => ([], .error e)
  | .ok _ =>
    let path := ti_artifact_name (env.tempStem tn)
    match env.bqLoadResult tn with
    | .error e =>
      ([.stagingWrite tn path df,
        .bqLoad tn (disposition_ti is_daily) (partition_ti tn)], .error e)
    | .ok _ =>
      ([.stagingWrite tn path df,
        .bqLoad tn (disposition_ti is_daily) (partition_ti tn),
        .fileDelete path, .bqGetTable tn], .ok ())

/-- `etl_mysql_to_bigquery.load_to_bigquery`: empty batches are a logged
no-op before any artifact or warehouse work; the disposition is always
`WRITE_APPEND` and there is no partitioning. -/
def load_to_bigquery_etl (env : EnvEtl) (df : DataFrame) (tn : String) :
    List Event × Except String Unit :=
  if df.isEmpty then ([], .ok ())
  else
    match get_schema_from_config env.schema_config tn with
    | .error e => ([], .error e)
    | .ok _ =>
      let path := etl_artifact_name env.current_date tn
      match env.bqLoadResult tn with
      | .error e =>
        ([.stagingWrite tn path df, .bqLoad tn .append none], .error e)
      | .ok _ =>
        ([.stagingWrite tn path df, .bqLoad tn .append none,
          .fileDelete path, .bqGetTable tn], .ok ())

/-- `etl_daily_log.load_to_bigquery`: like the etl variant but always
`WRITE_TRUNCATE`, for the fixed table `daily_log`. -/
def load_to_bigquery_hist (env : EnvHist) (df : DataFrame) :
    List Event × Except String Unit :=
  if df.isEmpty then ([], .ok ())
  else
    match get_schema_from_config env.schema_config "daily_log" with
    | .error e => ([], .error e)
    | .ok _ =>
      let path := hist_artifact_name env.current_date "daily_log"
      match env.bqLoadResult with
      | .error e =>
        ([.stagingWrite "daily_log" path df,
          .bqLoad "daily_log" .truncate none], .error e)
      | .ok _ =>
        ([.stagingWrite "daily_log" path df,
          .bqLoad "daily_log" .truncate none,
          .fileDelete path, .bqGetTable "daily_log"], .ok ())

/-- Allow-list hardcoded in `ti_db_inventory_to_BQ.get_mysql_tables`. -/
def allowed_tables_ti : List String := ["backup_log", "daily_log", "servers_temp"]

/-- `ti_db_inventory_to_BQ.get_mysql_tables`: the source store's base
tables intersected with the fixed allow-list. -/
def get_mysql_tables_ti (env : EnvTi) : List String :=
  env.showTables.filter (fun t => decide (t ∈ allowed_tables_ti))

/-- `etl_mysql_to_bigquery.get_mysql_tables`: the source store's base
tables intersected with the schema-config keys. -/
def get_mysql_tables_etl (env : EnvEtl) : List String :=
  env.showTables.filter (fun t => decide (t ∈ env.schema_config.map Prod.fst))

/-- The per-table body of `ti_db_inventory_to_BQ.run_etl`: extract, and if
the batch is non-empty, transform then load. -/
def processTable_ti (env : EnvTi) (is_daily : Bool) (tn : String) :
    List Event × Except String Unit :=
  let ev := Event.extractQuery tn (window_ti is_daily tn env.yesterday)
  match env.extract tn with
  | .error e => ([ev], .error e)
  | .ok df =>
    if df.isEmpty then ([ev], .ok ())
    else
      let df2 := transform_data_ti df tn
      let (evs, r) := load_to_bigquery_ti env df2 tn is_daily
      (ev :: evs, r)

/-- The per-table body of `etl_mysql_to_bigquery.run_etl`. -/
def processTable_etl (env : EnvEtl) (tn : String) :
    List Event × Except String Unit :=
  let ev := Event.extractQuery tn (window_etl env.today)
  match env.extract tn with
  | .error e => ([ev], .error e)
  | .ok df =>
    if df.isEmpty then ([ev], .ok ())
    else
      let df2 := transform_data_etl df tn
      let (evs, r) := load_to_bigquery_etl env df2 tn
      (ev :: evs, r)

/-- Sequential per-table loop of both multi-table scripts: each table runs
to completion; the first failure aborts the remaining tables. -/
def run_tables (p : String → List Event × Except String Unit) :
    List String → List Event × Except String Unit
  | [] => ([], .ok ())
  | tn :: rest =>
    let (evs, r) := p tn
    match r with
    | .error e => (evs, .error e)
    | .ok _ =>
      let (evs2, r2) := run_tables p rest
      (evs ++ evs2, r2)

/-- Age threshold of `cleanup_old_files`: `timedelta(days=7)` in seconds. -/
def sevenDays : Nat := 7 * 24 * 60 * 60

/-- Whether a dumps-directory file is strictly older than seven days at
sweep time (`current_time - file_modified_time > timedelta(days=7)`). -/
def isOld (now : Nat) (f : String × Nat) : Bool :=
  decide (sevenDays < now - f.2)

/-- The deletion loop of `cleanup_old_files`, together with the
`try/except` that surrounds the WHOLE loop: the first failing
`os.remove` aborts the remaining iterations, and the exception is caught
and logged (returned as the second component), never re-raised. -/
def cleanup_loop (now : Nat) (removeOk : String → Bool) :
    List (String × Nat) → List String × Option String
  | [] => ([], none)
  | f :: rest =>
    if isOld now f then
      if removeOk f.1 then
        let (d, err) := cleanup_loop now removeOk rest
        (f.1 :: d, err)
      else ([], some f.1)
    else cleanup_loop now removeOk rest

/-- `glob.glob(os.path.join(DUMPS_DIR, "*.json"))`: whether a file name
matches the `*.json` pattern. -/
def globJson (name : String) : Bool :=
  ".json".data.isSuffixOf name.data

/-- `cleanup_old_files` (identical in both multi-table scripts): glob the
dumps directory for `*.json`, then delete the old ones; any exception is
caught and logged, never propagated. -/
def cleanup_old_files (now : Nat) (files : List (String × Nat))
    (removeOk : String → Bool) : List String × Option String :=
  cleanup_loop now removeOk (files.filter (fun f => globJson f.1))

/-- `ti_db_inventory_to_BQ.run_etl`: discover tables, process each in
sequence, then sweep the dumps directory — the sweep only runs when no
table failed, because a failure propagates past it. -/
def run_etl_ti (env : EnvTi) (is_daily : Bool) : List Event × Except String Unit :=
  let (evs, r) := run_tables (processTable_ti env is_daily) (get_mysql_tables_ti env)
  match r with
  | .error e => (evs, .error e)
  | .ok _ =>
    let (deleted, _err) := cleanup_old_files env.now env.files env.removeOk
    (evs ++ Event.cleanupSweep :: deleted.map Event.fileDelete, .ok ())

/-- `etl_mysql_to_bigquery.run_etl`. -/
def run_etl_etl (env : EnvEtl) : List Event × Except String Unit :=
  let (evs, r) := run_tables (processTable_etl env) (get_mysql_tables_etl env)
  match r with
  | .error e => (evs, .error e)
  | .ok _ =>
    let (deleted, _err) := cleanup_old_files env.now env.files env.removeOk
    (evs ++ Event.cleanupSweep :: deleted.map Event.fileDelete, .ok ())

/-- `etl_daily_log.run_etl`: the single fixed table, no sweep at all. -/
def run_etl_hist (env : EnvHist) : List Event × Except String Unit :=
  let ev := Event.extractQuery "daily_log" window_hist
  match env.extract with
  | .error e => ([ev], .error e)
  | .ok df =>
    if df.isEmpty then ([ev], .ok ())
    else
      let (evs, r) := load_to_bigquery_hist env (transform_data_hist df)
      (ev :: evs, r)

/-- A run of `ti_db_inventory_to_BQ.py` (no `--daily`) in which the source
store has `backup_log` but the schema config declares only `daily_log`:
the extraction for `backup_log` succeeds with one row before the missing
schema is noticed. -/
def envC5 : EnvTi :=
  EnvTi.mk ["backup_log"] [("daily_log", [("BackupDate", "TIMESTAMP")])]
    (fun _ => .ok [("backup_date", [Value.vStr "2025-03-05 01:00:00"])])
    (fun _ => .ok ()) (fun _ => "t") "2025-03-06" 0 [] (fun _ => true)

/-- A `ti` run in which `backup_log` loads fine, the `daily_log` load is
rejected by the warehouse, and `servers_temp` is still pending. -/
def envC6 : EnvTi :=
  EnvTi.mk ["backup_log", "daily_log", "servers_temp"]
    [("backup_log", [("BackupDate", "TIMESTAMP")]),
     ("daily_log", [("BackupDate", "TIMESTAMP")]),
     ("servers_temp", [("name", "STRING")])]
    (fun _ => .ok [("backup_date", [Value.vStr "2025-03-05 01:00:00"])])
    (fun t => if t == "daily_log" then .error "quota" else .ok ())
    (fun _ => "t") "2025-03-06" 0 [] (fun _ => true)

/-- An `etl_mysql_to_bigquery` run whose single discovered table fails to
load. -/
def envC6E : EnvEtl :=
  EnvEtl.mk ["daily_log"] [("daily_log", [("BackupDate", "TIMESTAMP")])]
    (fun _ => .ok [("backup_date", [Value.vStr "2025-03-05 01:00:00"])])
    (fun _ => .error "quota") "2025-03-07" "2025-03-07" 0 [] (fun _ => true)

/-- A successful daily-mode ti load whose OS-generated temp stem is
`/tmp/tmpw8r2xq1z`. -/
def envC9 : EnvTi :=
  EnvTi.mk ["daily_log"] [("daily_log", [("BackupDate", "TIMESTAMP")])]
    (fun _ => .ok [("BackupDate", [Value.vStr "2025-03-06 01:00:00"])])
    (fun _ => .ok ()) (fun _ => "/tmp/tmpw8r2xq1z") "2025-03-06" 0 []
    (fun _ => true)

/-! ### Idempotence of the transform primitives -/

theorem toBool_idem (v : Value) : toBool (toBool v) = toBool v := by
  cases v <;> rfl

theorem toBool_comp : toBool ∘ toBool = toBool :=
  funext toBool_idem

theorem lookup_mem {m : List (String × String)} {k v : String}
    (h : m.lookup k = some v) : (k, v) ∈ m := by
  induction m with
  | nil => simp [List.lookup] at h
  | cons p rest ih =>
    rw [List.lookup] at h
    rcases hk : k == p.1 with _ | _
    · rw [hk] at h
      exact List.mem_cons_of_mem _ (ih h)
    · rw [hk] at h
      obtain rfl : p.2 = v := by simpa using h
      have : k = p.1 := by simpa using hk
      subst this
      exact List.mem_cons_self _ _

theorem lookupRename_idem (m : List (String × String))
    (h : ∀ p ∈ m, m.lookup p.2 = none) (n : String) :
    lookupRename m (lookupRename m n) = lookupRename m n := by
  unfold lookupRename
  cases hv : m.lookup n with
  | none => simp [hv]
  | some v => simp [h _ (lookup_mem hv)]

theorem rename_cols_fixed (m : List (String × String)) (x : DataFrame)
    (hfix : ∀ c ∈ x, lookupRename m c.1 = c.1) : rename_cols m x = x := by
  unfold rename_cols
  conv_rhs => rw [(List.map_id x).symm]
  apply List.map_congr_left
  intro c hc
  rw [hfix c hc, id_eq]

theorem rename_cols_idem (m : List (String × String))
    (h : ∀ p ∈ m, m.lookup p.2 = none) (df : DataFrame) :
    rename_cols m (rename_cols m df) = rename_cols m df := by
  unfold rename_cols
  rw [List.map_map]
  apply List.map_congr_left
  intro c _
  simp [Function.comp, lookupRename_idem m h]

theorem coerce_bools_idem (bs : List String) (df : DataFrame) :
    coerce_bools bs (coerce_bools bs df) = coerce_bools bs df := by
  unfold coerce_bools
  rw [List.map_map]
  apply List.map_congr_left
  intro c _
  by_cases hc : c.1 ∈ bs <;>
    simp [Function.comp, hc, List.map_map, toBool_comp]

theorem drop_columns_idem (ds : List String) (df : DataFrame) :
    drop_columns ds (drop_columns ds df) = drop_columns ds df := by
  unfold drop_columns
  rw [List.filter_filter]
  apply List.filter_congr
  intro c _
  exact Bool.and_self _

theorem rename_then_drop_fixed (m : List (String × String))
    (h : ∀ p ∈ m, m.lookup p.2 = none) (ds : List String) (df : DataFrame) :
    rename_cols m (drop_columns ds (rename_cols m df))
      = drop_columns ds (rename_cols m df) := by
  apply rename_cols_fixed
  intro c hc
  have hc2 : c ∈ rename_cols m df := List.mem_of_mem_filter hc
  obtain ⟨c0, _, rfl⟩ := List.mem_map.mp hc2
  exact lookupRename_idem m h c0.1

/-- C4: the transform operation is idempotent.  For every batch and table
name, applying `transform_data` (of `etl_mysql_to_bigquery.py` and of
`ti_db_inventory_to_BQ.py`) to its own result yields the same batch as
applying it once: renames of already-renamed columns, boolean coercion of
already-boolean columns, and drops of already-dropped columns are no-ops. -/
theorem transform_data_idempotent (df : DataFrame) (tn : String) :
    transform_data_etl (transform_data_etl df tn) tn = transform_data_etl df tn ∧
    transform_data_ti (transform_data_ti df tn) tn = transform_data_ti df tn := by
  constructor
  · by_cases h1 : tn = "database_list" <;> by_cases h2 : tn = "daily_log" <;>
      simp only [transform_data_etl, h1, h2, beq_self_eq_true, if_true]
    · exact coerce_bools_idem _ _
    · have hne : ("database_list" == "daily_log") = false := by decide
      simp only [hne, Bool.false_eq_true, if_false]
      exact coerce_bools_idem _ _
    · have hne : ("daily_log" == "database_list") = false := by decide
      simp only [hne, Bool.false_eq_true, if_false]
      exact rename_cols_idem _ (by decide) _
    · have e1 : (tn == "database_list") = false := by simpa using h1
      have e2 : (tn == "daily_log") = false := by simpa using h2
      simp [e1, e2]
  · by_cases h1 : tn = "servers_temp" <;> by_cases h2 : tn = "daily_log" <;>
      simp only [transform_data_ti, h1, h2, beq_self_eq_true, if_true]
    · exact coerce_bools_idem _ _
    · have hne : ("servers_temp" == "daily_log") = false := by decide
      simp only [hne, Bool.false_eq_true, if_false]
      exact coerce_bools_idem _ _
    · have hne : ("daily_log" == "servers_temp") = false := by decide
      simp only [hne, Bool.false_eq_true, if_false]
      rw [rename_then_drop_fixed _ (by decide), drop_columns_idem]
    · have e1 : (tn == "servers_temp") = false := by simpa using h1
      have e2 : (tn == "daily_log") = false := by simpa using h2
      simp [e1, e2]

theorem findCol_cons (c : String) (p : Col) (rest : DataFrame) :
    DataFrame.findCol c (p :: rest)
      = if p.1 == c then some p.2 else DataFrame.findCol c rest := by
  unfold DataFrame.findCol
  cases h : p.1 == c
  · rw [List.find?_cons_of_neg _ (by simp [h]), if_neg (by simp [h])]
  · rw [List.find?_cons_of_pos _ (by simp [h]), if_pos rfl]
    rfl

theorem lookup_none_of_not_key {m : List (String × String)} {c : String}
    (h : c ∉ m.map Prod.fst) : m.lookup c = none := by
  induction m with
  | nil => rfl
  | cons p rest ih =>
    simp only [List.map_cons, List.mem_cons, not_or] at h
    rw [List.lookup, beq_false_of_ne h.1]
    exact ih h.2

theorem findCol_coerce (bs : List String) (df : DataFrame) (c : String)
    (h : c ∉ bs) :
    DataFrame.findCol c (coerce_bools bs df) = DataFrame.findCol c df := by
  induction df with
  | nil => rfl
  | cons p rest ih =>
    unfold coerce_bools at ih ⊢
    simp only [List.map_cons]
    by_cases hp : p.1 ∈ bs
    · have hpc : (p.1 == c) = false := by
        apply beq_false_of_ne; rintro rfl; exact h hp
      rw [findCol_cons, findCol_cons, if_neg, if_neg] <;>
        simp [hp, hpc, ih]
    · rw [findCol_cons, findCol_cons]
      simp only [if_neg hp]
      rw [ih]

theorem findCol_rename (m : List (String × String)) (df : DataFrame)
    (c : String) (h1 : m.lookup c = none) (h2 : ∀ p ∈ m, p.2 ≠ c) :
    DataFrame.findCol c (rename_cols m df) = DataFrame.findCol c df := by
  induction df with
  | nil => rfl
  | cons p rest ih =>
    unfold rename_cols at ih ⊢
    simp only [List.map_cons]
    rw [findCol_cons, findCol_cons]
    have hsame : (lookupRename m p.1 == c) = (p.1 == c) := by
      unfold lookupRename
      cases hv : m.lookup p.1 with
      | none => rfl
      | some v =>
        have hvc : (v == c) = false := beq_false_of_ne (h2 _ (lookup_mem hv))
        have hpc : (p.1 == c) = false := by
          apply beq_false_of_ne; rintro rfl
          rw [h1] at hv; exact Option.noConfusion hv
        rw [hvc, hpc]
    rw [hsame]
    cases hc : p.1 == c <;> simp [hc, ih]

theorem findCol_drop (ds : List String) (df : DataFrame) (c : String)
    (h : c ∉ ds) :
    DataFrame.findCol c (drop_columns ds df) = DataFrame.findCol c df := by
  induction df with
  | nil => rfl
  | cons p rest ih =>
    unfold drop_columns at ih ⊢
    rw [List.filter_cons]
    by_cases hp : p.1 ∈ ds
    · have hpc : (p.1 == c) = false := by
        apply beq_false_of_ne; rintro rfl; exact h hp
      rw [if_neg (by simp [hp]), findCol_cons, if_neg (by simp [hpc])]
      exact ih
    · rw [if_pos (by simp [hp]), findCol_cons, findCol_cons]
      rw [ih]

theorem coerce_lengths (bs : List String) (df : DataFrame) :
    (coerce_bools bs df).map (fun p => p.2.length)
      = df.map (fun p => p.2.length) := by
  unfold coerce_bools
  rw [List.map_map]
  apply List.map_congr_left
  intro c _
  by_cases hc : c.1 ∈ bs <;> simp [hc]

theorem rename_lengths (m : List (String × String)) (df : DataFrame) :
    (rename_cols m df).map (fun p => p.2.length)
      = df.map (fun p => p.2.length) := by
  unfold rename_cols
  rw [List.map_map]
  rfl

theorem lookupRename_ti_fileName (n : String) :
    (lookupRename dailyLogRenamesTi n == "fileName") = (n == "fileName") := by
  unfold lookupRename
  cases hv : dailyLogRenamesTi.lookup n with
  | none => rfl
  | some v =>
    have hmem := lookup_mem hv
    have hside : ∀ p ∈ dailyLogRenamesTi,
        p.2 ≠ "fileName" ∧ p.1 ≠ "fileName" := by decide
    have h2 := (hside _ hmem).1
    have h1 := (hside _ hmem).2
    rw [beq_false_of_ne h2, beq_false_of_ne h1]

theorem decide_eq_beq (a b : String) : decide (a = b) = (a == b) := by
  cases h : a == b
  · simp [ne_of_beq_false h]
  · simp [eq_of_beq h]

theorem drop_rename_lengths_ti (df : DataFrame) :
    (drop_columns ["fileName"]
        (rename_cols dailyLogRenamesTi df)).map (fun p => p.2.length)
      = (df.filter (fun c => !(c.1 == "fileName"))).map (fun p => p.2.length) := by
  induction df with
  | nil => rfl
  | cons p rest ih =>
    unfold drop_columns rename_cols at ih ⊢
    simp only [List.map_cons, List.filter_cons]
    have hk : (decide (lookupRename dailyLogRenamesTi p.1 ∉ (["fileName"] : List String)))
        = !(p.1 == "fileName") := by
      simp only [List.mem_singleton, decide_not, decide_eq_beq,
        lookupRename_ti_fileName]
    rw [hk]
    cases hc : p.1 == "fileName"
    · simp only [Bool.not_false, if_true, List.map_cons]
      rw [ih]
    · simp only [Bool.not_true, Bool.false_eq_true, if_false]
      exact ih

theorem not_target_imp {m : List (String × String)} {c : String}
    (h : c ∉ renameTargets m) : ∀ p ∈ m, p.2 ≠ c := by
  intro p hp e
  exact h (e ▸ List.mem_map_of_mem Prod.snd hp)

/-- C10: the transforms change only the columns their table spec names.
For every batch and table name, any column whose label is not among the
rename keys, rename targets, boolean-coercion columns, or dropped columns
for that table keeps its values unchanged (`findCol` agrees before and
after), and the per-column row counts are preserved: identically in
`etl_mysql_to_bigquery.transform_data` (which drops nothing), and up to
removal of exactly the dropped `fileName` column in
`ti_db_inventory_to_BQ.transform_data`. -/
theorem transform_data_frame (df : DataFrame) (tn c : String)
    (he : c ∉ touched_etl tn) (ht : c ∉ touched_ti tn) :
    DataFrame.findCol c (transform_data_etl df tn) = DataFrame.findCol c df ∧
    (transform_data_etl df tn).map (fun p => p.2.length)
      = df.map (fun p => p.2.length) ∧
    DataFrame.findCol c (transform_data_ti df tn) = DataFrame.findCol c df ∧
    (transform_data_ti df tn).map (fun p => p.2.length)
      = (df.filter (keptByTi tn)).map (fun p => p.2.length) := by
  refine ⟨?_, ?_, ?_, ?_⟩
  · by_cases h1 : tn = "database_list"
    · subst h1
      simp only [touched_etl, beq_self_eq_true, if_true, List.mem_append] at he
      have hb : c ∉ boolColumns := fun hc => he (Or.inl hc)
      simp only [transform_data_etl, beq_self_eq_true, if_true,
        show ("database_list" == "daily_log") = false from by decide,
        Bool.false_eq_true, if_false]
      exact findCol_coerce _ _ _ hb
    · by_cases h2 : tn = "daily_log"
      · subst h2
        simp only [touched_etl, beq_self_eq_true, if_true,
          show ("daily_log" == "database_list") = false from by decide,
          Bool.false_eq_true, if_false, List.nil_append, List.mem_append] at he
        have hk : c ∉ renameKeys dailyLogRenamesEtl := fun hc => he (Or.inl hc)
        have htg : c ∉ renameTargets dailyLogRenamesEtl := fun hc => he (Or.inr hc)
        simp only [transform_data_etl, beq_self_eq_true, if_true,
          show ("daily_log" == "database_list") = false from by decide,
          Bool.false_eq_true, if_false]
        exact findCol_rename _ _ _ (lookup_none_of_not_key hk) (not_target_imp htg)
      · have e1 : (tn == "database_list") = false := by simpa using h1
        have e2 : (tn == "daily_log") = false := by simpa using h2
        simp [transform_data_etl, e1, e2]
  · by_cases h1 : tn = "database_list"
    · subst h1
      simp only [transform_data_etl, beq_self_eq_true, if_true,
        show ("database_list" == "daily_log") = false from by decide,
        Bool.false_eq_true, if_false]
      exact coerce_lengths _ _
    · by_cases h2 : tn = "daily_log"
      · subst h2
        simp only [transform_data_etl, beq_self_eq_true, if_true,
          show ("daily_log" == "database_list") = false from by decide,
          Bool.false_eq_true, if_false]
        exact rename_lengths _ _
      · have e1 : (tn == "database_list") = false := by simpa using h1
        have e2 : (tn == "daily_log") = false := by simpa using h2
        simp [transform_data_etl, e1, e2]
  · by_cases h1 : tn = "servers_temp"
    · subst h1
      simp only [touched_ti, beq_self_eq_true, if_true, List.mem_append] at ht
      have hb : c ∉ boolColumns := fun hc => ht (Or.inl hc)
      simp only [transform_data_ti, beq_self_eq_true, if_true,
        show ("servers_temp" == "daily_log") = false from by decide,
        Bool.false_eq_true, if_false]
      exact findCol_coerce _ _ _ hb
    · by_cases h2 : tn = "daily_log"
      · subst h2
        simp only [touched_ti, beq_self_eq_true, if_true,
          show ("daily_log" == "servers_temp") = false from by decide,
          Bool.false_eq_true, if_false, List.nil_append, List.mem_append,
          List.mem_singleton] at ht
        push_neg at ht
        obtain ⟨⟨hk, htg⟩, hf⟩ := ht
        simp only [transform_data_ti, beq_self_eq_true, if_true,
          show ("daily_log" == "servers_temp") = false from by decide,
          Bool.false_eq_true, if_false]
        rw [findCol_drop _ _ _ (by simpa using hf),
          findCol_rename _ _ _ (lookup_none_of_not_key hk) (not_target_imp htg)]
      · have e1 : (tn == "servers_temp") = false := by simpa using h1
        have e2 : (tn == "daily_log") = false := by simpa using h2
        simp [transform_data_ti, e1, e2]
  · by_cases h1 : tn = "servers_temp"
    · subst h1
      simp only [transform_data_ti, beq_self_eq_true, if_true,
        show ("servers_temp" == "daily_log") = false from by decide,
        Bool.false_eq_true, if_false]
      rw [coerce_lengths]
      have : df.filter (keptByTi "servers_temp") = df := by
        apply List.filter_eq_self.mpr
        intro c _
        simp [keptByTi]
      rw [this]
    · by_cases h2 : tn = "daily_log"
      · subst h2
        simp only [transform_data_ti, beq_self_eq_true, if_true,
          show ("daily_log" == "servers_temp") = false from by decide,
          Bool.false_eq_true, if_false]
        rw [drop_rename_lengths_ti]
        have : df.filter (keptByTi "daily_log")
            = df.filter (fun c => !(c.1 == "fileName")) := by
          apply List.filter_congr
          intro c _
          simp [keptByTi]
        rw [this]
      · have e1 : (tn == "servers_temp") = false := by simpa using h1
        have e2 : (tn == "daily_log") = false := by simpa using h2
        have : df.filter (keptByTi tn) = df := by
          apply List.filter_eq_self.mpr
          intro c _
          simp [keptByTi, e2]
        simp [transform_data_ti, e1, e2, this]

/-- Witness for the frame theorem: a concrete `daily_log` batch with a
spare column `extra`, which survives both transforms unchanged. -/
theorem transform_data_frame_witness :
    ("extra" ∉ touched_etl "daily_log") ∧ ("extra" ∉ touched_ti "daily_log") ∧
    DataFrame.findCol "extra"
        (transform_data_ti
          [("extra", [Value.vInt 1]), ("fileName", [Value.vInt 2])] "daily_log")
      = DataFrame.findCol "extra"
          [("extra", [Value.vInt 1]), ("fileName", [Value.vInt 2])] :=
  ⟨by decide, by decide,
    (transform_data_frame
        [("extra", [Value.vInt 1]), ("fileName", [Value.vInt 2])]
        "daily_log" "extra" (by decide) (by decide)).2.2.1⟩

/-- C2 counterexample: the extraction window is NOT fixed by the run mode
alone.  In daily mode (`--daily`), `ti_db_inventory_to_BQ` applies the
yesterday window only to `backup_log` and `daily_log`; for `servers_temp`
the query is unconditional, so a row dated `2020-01-01` is selected even
though yesterday is `2025-03-06`. -/
theorem window_daily_not_fixed_by_mode :
    window_ti true "servers_temp" "2025-03-06" = Window.all ∧
    selectRows (window_ti true "servers_temp" "2025-03-06")
        [("2020-01-01", [])] = [("2020-01-01", [])] ∧
    ("2020-01-01" : String) ≠ "2025-03-06" :=
  ⟨rfl, rfl, by decide⟩

/-- C2 amended: historical mode (`etl_daily_log`) selects exactly the rows
dated strictly before the fixed cutoff `2025-03-07`; default incremental
mode (`etl_mysql_to_bigquery`) selects exactly the rows dated today; daily
mode (`ti_db_inventory_to_BQ --daily`) selects exactly the rows dated
yesterday for the tables `backup_log` and `daily_log` only, while every
other table — and every table of a non-daily (full) run — is extracted
unconditionally. -/
theorem extraction_window_mapping (today yesterday tn : String)
    (is_daily : Bool) (rows : List SrcRow) (r : SrcRow) :
    (window_hist = Window.lt "2025-03-07" ∧
      (r ∈ selectRows window_hist rows ↔ r ∈ rows ∧ r.1 < "2025-03-07")) ∧
    (window_etl today = Window.eq today ∧
      (r ∈ selectRows (window_etl today) rows ↔ r ∈ rows ∧ r.1 = today)) ∧
    ((is_daily = true ∧ (tn = "backup_log" ∨ tn = "daily_log")) →
      (r ∈ selectRows (window_ti is_daily tn yesterday) rows ↔
        r ∈ rows ∧ r.1 = yesterday)) ∧
    ((is_daily = false ∨ (tn ≠ "backup_log" ∧ tn ≠ "daily_log")) →
      selectRows (window_ti is_daily tn yesterday) rows = rows) := by
  refine ⟨⟨rfl, ?_⟩, ⟨rfl, ?_⟩, ?_, ?_⟩
  · rw [selectRows, List.mem_filter]
    simp [window_hist, Window.selects]
  · rw [selectRows, List.mem_filter]
    simp [window_etl, Window.selects]
  · rintro ⟨rfl, htn⟩
    have hw : window_ti true tn yesterday = Window.eq yesterday := by
      rcases htn with rfl | rfl <;> rfl
    rw [hw, selectRows, List.mem_filter]
    simp [Window.selects]
  · intro h
    have hw : window_ti is_daily tn yesterday = Window.all := by
      rcases h with rfl | ⟨h1, h2⟩
      · rfl
      · have e1 : (tn == "backup_log") = false := by simpa using h1
        have e2 : (tn == "daily_log") = false := by simpa using h2
        simp [window_ti, e1, e2]
    rw [hw, selectRows]
    simp [Window.selects]

/-- Witness for the amended window mapping: a row dated yesterday is
selected by the daily window on `daily_log`. -/
theorem extraction_window_mapping_witness :
    (("2025-03-06", ([] : List (String × Value))) ∈
        selectRows (window_ti true "daily_log" "2025-03-06")
          [("2025-03-06", [])] ↔
      ("2025-03-06", ([] : List (String × Value))) ∈
          [(("2025-03-06" : String), ([] : List (String × Value)))] ∧
        ("2025-03-06" : String) = "2025-03-06") :=
  (extraction_window_mapping "2025-03-07" "2025-03-06" "daily_log" true
      [("2025-03-06", [])] ("2025-03-06", [])).2.2.1 ⟨rfl, Or.inr rfl⟩

/-- C1: a table whose extraction yields an empty batch is a no-op.  In all
three scripts the per-table processing then consists of the extraction
query alone — no staging artifact is written, no warehouse call is made —
and it finishes with `ok`, not an error. -/
theorem empty_batch_skips_load (envT : EnvTi) (envE : EnvEtl) (envH : EnvHist)
    (is_daily : Bool) (tn : String) (dfT dfE dfH : DataFrame)
    (hT : envT.extract tn = .ok dfT) (hTe : dfT.isEmpty = true)
    (hE : envE.extract tn = .ok dfE) (hEe : dfE.isEmpty = true)
    (hH : envH.extract = .ok dfH) (hHe : dfH.isEmpty = true) :
    processTable_ti envT is_daily tn
        = ([.extractQuery tn (window_ti is_daily tn envT.yesterday)], .ok ()) ∧
    processTable_etl envE tn
        = ([.extractQuery tn (window_etl envE.today)], .ok ()) ∧
    run_etl_hist envH = ([.extractQuery "daily_log" window_hist], .ok ()) := by
  refine ⟨?_, ?_, ?_⟩
  · rw [processTable_ti, hT]
    simp [hTe]
  · rw [processTable_etl, hE]
    simp [hEe]
  · rw [run_etl_hist, hH]
    simp [hHe]

/-- Witness for C1: a concrete environment whose extraction returns a
frame with columns but zero rows. -/
theorem empty_batch_skips_load_witness :
    (EnvTi.mk ["daily_log"] [] (fun _ => .ok [("backup_date", [])])
        (fun _ => .ok ()) (fun _ => "t") "2025-03-06" 0 [] (fun _ => true)).extract
        "daily_log" = .ok [("backup_date", [])] ∧
    processTable_ti
        (EnvTi.mk ["daily_log"] [] (fun _ => .ok [("backup_date", [])])
          (fun _ => .ok ()) (fun _ => "t") "2025-03-06" 0 [] (fun _ => true))
        true "daily_log"
      = ([.extractQuery "daily_log"
            (window_ti true "daily_log" "2025-03-06")], .ok ()) := by
  refine ⟨rfl, ?_⟩
  exact (empty_batch_skips_load
    (EnvTi.mk ["daily_log"] [] (fun _ => .ok [("backup_date", [])])
      (fun _ => .ok ()) (fun _ => "t") "2025-03-06" 0 [] (fun _ => true))
    (EnvEtl.mk [] [] (fun _ => .ok []) (fun _ => .ok ()) "d" "d" 0 [] (fun _ => true))
    (EnvHist.mk [] (.ok []) (.ok ()) "d")
    true "daily_log" [("backup_date", [])] [] []
    rfl rfl rfl rfl rfl rfl).1

/-- C3: the write disposition is a function of the run mode alone.  Every
load the ti script submits carries `WRITE_APPEND` exactly when `--daily`
was given and `WRITE_TRUNCATE` otherwise; every load of the incremental
`etl_mysql_to_bigquery` script carries `WRITE_APPEND`; every load of the
historical `etl_daily_log` script carries `WRITE_TRUNCATE`. -/
theorem disposition_mapping (envT : EnvTi) (envE : EnvEtl) (envH : EnvHist)
    (is_daily : Bool) (tn tb : String) (df : DataFrame) (d : Disposition)
    (pf : Option String) :
    disposition_ti true = .append ∧ disposition_ti false = .truncate ∧
    (Event.bqLoad tb d pf ∈ (load_to_bigquery_ti envT df tn is_daily).1 →
      d = disposition_ti is_daily) ∧
    (Event.bqLoad tb d pf ∈ (load_to_bigquery_etl envE df tn).1 →
      d = .append) ∧
    (Event.bqLoad tb d pf ∈ (load_to_bigquery_hist envH df).1 →
      d = .truncate) := by
  refine ⟨rfl, rfl, ?_, ?_, ?_⟩
  · rw [load_to_bigquery_ti]
    cases get_schema_from_config envT.schema_config tn with
    | error e => intro h; cases h
    | ok s =>
      cases envT.bqLoadResult tn with
      | error e =>
        intro h
        simp at h
        exact h.2.1
      | ok u =>
        intro h
        simp at h
        exact h.2.1
  · rw [load_to_bigquery_etl]
    by_cases he : df.isEmpty
    · intro h
      simp [he] at h
    · simp only [he, Bool.false_eq_true, if_false]
      cases get_schema_from_config envE.schema_config tn with
      | error e => intro h; cases h
      | ok s =>
        cases envE.bqLoadResult tn with
        | error e =>
          intro h
          simp at h
          exact h.2.1
        | ok u =>
          intro h
          simp at h
          exact h.2.1
  · rw [load_to_bigquery_hist]
    by_cases he : df.isEmpty
    · intro h
      simp [he] at h
    · simp only [he, Bool.false_eq_true, if_false]
      cases get_schema_from_config envH.schema_config "daily_log" with
      | error e => intro h; cases h
      | ok s =>
        cases envH.bqLoadResult with
        | error e =>
          intro h
          simp at h
          exact h.2.1
        | ok u =>
          intro h
          simp at h
          exact h.2.1

/-- Witness for C3: a daily-mode ti load submits `WRITE_APPEND` with the
`daily_log` day partitioning. -/
theorem disposition_mapping_witness :
    Event.bqLoad "daily_log" Disposition.append (some "BackupDate") ∈
        (load_to_bigquery_ti
          (EnvTi.mk ["daily_log"] [("daily_log", [("BackupDate", "TIMESTAMP")])]
            (fun _ => .ok []) (fun _ => .ok ()) (fun _ => "t") "y" 0 []
            (fun _ => true))
          [("BackupDate", [Value.vInt 1])] "daily_log" true).1 ∧
    Disposition.append = disposition_ti true :=
  ⟨by decide,
    (disposition_mapping
      (EnvTi.mk ["daily_log"] [("daily_log", [("BackupDate", "TIMESTAMP")])]
        (fun _ => .ok []) (fun _ => .ok ()) (fun _ => "t") "y" 0 []
        (fun _ => true))
      (EnvEtl.mk [] [] (fun _ => .ok []) (fun _ => .ok ()) "d" "d" 0 []
        (fun _ => true))
      (EnvHist.mk [] (.ok []) (.ok ()) "d")
      true "daily_log" "daily_log" [("BackupDate", [Value.vInt 1])]
      .append (some "BackupDate")).2.2.1 (by decide)⟩

/-- C5 counterexample: a table with no declared schema does NOT fail
before its extraction query.  In `ti_db_inventory_to_BQ.py` the run does
fail with the configuration error, but its trace already contains the
source-store extraction query for that table: the schema is only looked
up inside the load stage. -/
theorem schema_missing_not_preflight :
    run_etl_ti envC5 false
      = ([.extractQuery "backup_log" Window.all],
         .error "No schema defined for table: backup_log") ∧
    Event.extractQuery "backup_log" Window.all ∈ (run_etl_ti envC5 false).1 := by
  constructor
  · rfl
  · rw [(by rfl : (run_etl_ti envC5 false).1
      = [Event.extractQuery "backup_log" Window.all])]
    exact List.mem_singleton.mpr rfl

/-- C5 amended: in `ti_db_inventory_to_BQ.py` a table with no declared
schema makes the run fail with the `No schema defined` configuration
error during the load stage — after its extraction query has run, but
before any staging artifact is written or any warehouse call is made for
it; in `etl_mysql_to_bigquery.py` such a table is excluded at discovery
and never processed at all. -/
theorem schema_missing_fails_in_load (env : EnvTi) (envE : EnvEtl)
    (is_daily : Bool) (tn : String) (df : DataFrame)
    (hschema : env.schema_config.lookup tn = none)
    (hex : env.extract tn = .ok df) (hne : df.isEmpty = false)
    (hconf : tn ∉ envE.schema_config.map Prod.fst) :
    processTable_ti env is_daily tn
      = ([.extractQuery tn (window_ti is_daily tn env.yesterday)],
         .error ("No schema defined for table: " ++ tn)) ∧
    (∀ e ∈ (processTable_ti env is_daily tn).1,
      (∀ tb p b, e ≠ Event.stagingWrite tb p b) ∧
      (∀ tb d pf, e ≠ Event.bqLoad tb d pf)) ∧
    tn ∉ get_mysql_tables_etl envE := by
  have hmain : processTable_ti env is_daily tn
      = ([.extractQuery tn (window_ti is_daily tn env.yesterday)],
         .error ("No schema defined for table: " ++ tn)) := by
    rw [processTable_ti, hex]
    simp only [hne, Bool.false_eq_true, if_false]
    rw [load_to_bigquery_ti, get_schema_from_config, hschema]
  refine ⟨hmain, ?_, ?_⟩
  · intro e he
    rw [hmain] at he
    rcases List.mem_singleton.mp he with rfl
    exact ⟨fun _ _ _ h => Event.noConfusion h, fun _ _ _ h => Event.noConfusion h⟩
  · intro hmem
    rw [get_mysql_tables_etl] at hmem
    exact hconf (of_decide_eq_true (List.mem_filter.mp hmem).2)

/-- Witness for the amended C5 theorem at the concrete `envC5`. -/
theorem schema_missing_fails_in_load_witness :
    envC5.schema_config.lookup "backup_log" = none ∧
    processTable_ti envC5 false "backup_log"
      = ([.extractQuery "backup_log" Window.all],
         .error "No schema defined for table: backup_log") :=
  ⟨by decide,
    (schema_missing_fails_in_load envC5
      (EnvEtl.mk ["backup_log"] [] (fun _ => .ok []) (fun _ => .ok ())
        "d" "d" 0 [] (fun _ => true))
      false "backup_log" [("backup_date", [Value.vStr "2025-03-05 01:00:00"])]
      (by decide) rfl (by decide) (by decide)).1⟩

theorem run_tables_abort (p : String → List Event × Except String Unit)
    (pre : List String) (bad : String) (post : List String) (e : String)
    (hok : ∀ t ∈ pre, (p t).2 = .ok ())
    (hbad : (p bad).2 = .error e) :
    run_tables p (pre ++ bad :: post)
      = (pre.flatMap (fun t => (p t).1) ++ (p bad).1, .error e) := by
  induction pre with
  | nil =>
    rcases hpt : p bad with ⟨evs, r⟩
    rw [hpt] at hbad
    simp only at hbad
    subst hbad
    simp only [List.nil_append, List.flatMap_nil, run_tables, hpt]
  | cons t rest ih =>
    rcases hpt : p t with ⟨evs, r⟩
    have ht := hok t (List.mem_cons_self _ _)
    rw [hpt] at ht
    simp only at ht
    subst ht
    simp only [List.cons_append, run_tables, hpt, List.append_eq]
    rw [ih (fun u hu => hok u (List.mem_cons_of_mem _ hu))]
    simp [List.flatMap_cons, List.append_assoc, hpt]

theorem cleanup_not_in_load_ti (env : EnvTi) (df : DataFrame) (tn : String)
    (is_daily : Bool) :
    Event.cleanupSweep ∉ (load_to_bigquery_ti env df tn is_daily).1 := by
  rw [load_to_bigquery_ti]
  cases get_schema_from_config env.schema_config tn with
  | error e => simp
  | ok s => cases env.bqLoadResult tn <;> simp

theorem cleanup_not_in_load_etl (env : EnvEtl) (df : DataFrame) (tn : String) :
    Event.cleanupSweep ∉ (load_to_bigquery_etl env df tn).1 := by
  rw [load_to_bigquery_etl]
  by_cases he : df.isEmpty
  · simp [he]
  · simp only [he, Bool.false_eq_true, if_false]
    cases get_schema_from_config env.schema_config tn with
    | error e => simp
    | ok s => cases env.bqLoadResult tn <;> simp

theorem cleanup_not_in_processTable_ti (env : EnvTi) (is_daily : Bool)
    (tn : String) :
    Event.cleanupSweep ∉ (processTable_ti env is_daily tn).1 := by
  rw [processTable_ti]
  cases env.extract tn with
  | error e => simp
  | ok df =>
    by_cases he : df.isEmpty
    · simp [he]
    · simp only [he, Bool.false_eq_true, if_false, List.mem_cons]
      rintro (h | h)
      · exact Event.noConfusion h
      · exact cleanup_not_in_load_ti env _ tn is_daily h

theorem cleanup_not_in_processTable_etl (env : EnvEtl) (tn : String) :
    Event.cleanupSweep ∉ (processTable_etl env tn).1 := by
  rw [processTable_etl]
  cases env.extract tn with
  | error e => simp
  | ok df =>
    by_cases he : df.isEmpty
    · simp [he]
    · simp only [he, Bool.false_eq_true, if_false, List.mem_cons]
      rintro (h | h)
      · exact Event.noConfusion h
      · exact cleanup_not_in_load_etl env _ tn h

/-- C6: a stage failure on one table aborts the remainder of the run.  In
both multi-table scripts, if the discovered table list splits as
`pre ++ bad :: post` with every table of `pre` succeeding and `bad`
failing, then the whole run's trace is exactly the traces of `pre` (their
loads stay committed — nothing is rolled back) followed by `bad`'s partial
trace: tables in `post` contribute no events at all, the run result is
that error, and the staging-directory sweep for the run never executes. -/
theorem run_aborts_on_failure (envT : EnvTi) (envE : EnvEtl) (is_daily : Bool)
    (preT postT preE postE : List String) (badT badE : String) (eT eE : String)
    (hT : get_mysql_tables_ti envT = preT ++ badT :: postT)
    (hTok : ∀ t ∈ preT, (processTable_ti envT is_daily t).2 = .ok ())
    (hTbad : (processTable_ti envT is_daily badT).2 = .error eT)
    (hE : get_mysql_tables_etl envE = preE ++ badE :: postE)
    (hEok : ∀ t ∈ preE, (processTable_etl envE t).2 = .ok ())
    (hEbad : (processTable_etl envE badE).2 = .error eE) :
    (run_etl_ti envT is_daily
        = (preT.flatMap (fun t => (processTable_ti envT is_daily t).1)
            ++ (processTable_ti envT is_daily badT).1, .error eT) ∧
      Event.cleanupSweep ∉ (run_etl_ti envT is_daily).1) ∧
    (run_etl_etl envE
        = (preE.flatMap (fun t => (processTable_etl envE t).1)
            ++ (processTable_etl envE badE).1, .error eE) ∧
      Event.cleanupSweep ∉ (run_etl_etl envE).1) := by
  have habT := run_tables_abort (processTable_ti envT is_daily)
    preT badT postT eT hTok hTbad
  have habE := run_tables_abort (processTable_etl envE)
    preE badE postE eE hEok hEbad
  have hrunT : run_etl_ti envT is_daily
      = (preT.flatMap (fun t => (processTable_ti envT is_daily t).1)
          ++ (processTable_ti envT is_daily badT).1, .error eT) := by
    rw [run_etl_ti, hT, habT]
  have hrunE : run_etl_etl envE
      = (preE.flatMap (fun t => (processTable_etl envE t).1)
          ++ (processTable_etl envE badE).1, .error eE) := by
    rw [run_etl_etl, hE, habE]
  refine ⟨⟨hrunT, ?_⟩, ⟨hrunE, ?_⟩⟩
  · rw [hrunT]
    intro hmem
    rcases List.mem_append.mp hmem with h | h
    · obtain ⟨t, _, hin⟩ := List.mem_flatMap.mp h
      exact cleanup_not_in_processTable_ti envT is_daily t hin
    · exact cleanup_not_in_processTable_ti envT is_daily badT h
  · rw [hrunE]
    intro hmem
    rcases List.mem_append.mp hmem with h | h
    · obtain ⟨t, _, hin⟩ := List.mem_flatMap.mp h
      exact cleanup_not_in_processTable_etl envE t hin
    · exact cleanup_not_in_processTable_etl envE badE h

/-- Witness for C6: in `envC6`, `backup_log`'s completed load events stay
in the trace, `daily_log`'s failure ends the run, `servers_temp` is never
reached and no sweep happens. -/
theorem run_aborts_on_failure_witness :
    run_etl_ti envC6 true
      = ((["backup_log"] : List String).flatMap
            (fun t => (processTable_ti envC6 true t).1)
          ++ (processTable_ti envC6 true "daily_log").1, .error "quota") ∧
    Event.cleanupSweep ∉ (run_etl_ti envC6 true).1 :=
  (run_aborts_on_failure envC6 envC6E true
    ["backup_log"] ["servers_temp"] [] [] "daily_log" "daily_log"
    "quota" "quota"
    rfl
    (fun t ht => by rw [List.mem_singleton.mp ht]; rfl)
    rfl
    rfl
    (fun t ht => absurd ht (List.not_mem_nil t))
    rfl).1

/-! ### StagingJanitor properties -/

theorem cleanup_loop_all_ok (now : Nat) (rm : String → Bool)
    (l : List (String × Nat))
    (hrm : ∀ g ∈ l, isOld now g = true → rm g.1 = true) :
    cleanup_loop now rm l = ((l.filter (isOld now)).map Prod.fst, none) := by
  induction l with
  | nil => rfl
  | cons f rest ih =>
    rw [cleanup_loop, List.filter_cons]
    by_cases ho : isOld now f = true
    · rw [if_pos ho, if_pos (hrm f (List.mem_cons_self _ _) ho), if_pos ho,
        ih (fun g hg => hrm g (List.mem_cons_of_mem _ hg))]
      rfl
    · rw [if_neg ho, if_neg ho,
        ih (fun g hg => hrm g (List.mem_cons_of_mem _ hg))]

theorem cleanup_loop_abort (now : Nat) (rm : String → Bool)
    (pre post : List (String × Nat)) (f : String × Nat)
    (hpre : ∀ g ∈ pre, isOld now g = true → rm g.1 = true)
    (hf : isOld now f = true) (hrm : rm f.1 = false) :
    cleanup_loop now rm (pre ++ f :: post)
      = ((pre.filter (isOld now)).map Prod.fst, some f.1) := by
  induction pre with
  | nil =>
    rw [List.nil_append, cleanup_loop, if_pos hf, if_neg (by rw [hrm]; simp)]
    rfl
  | cons g rest ih =>
    rw [List.cons_append, cleanup_loop, List.filter_cons]
    by_cases ho : isOld now g = true
    · rw [if_pos ho, if_pos (hpre g (List.mem_cons_self _ _) ho), if_pos ho,
        ih (fun u hu => hpre u (List.mem_cons_of_mem _ hu))]
      rfl
    · rw [if_neg ho, if_neg ho,
        ih (fun u hu => hpre u (List.mem_cons_of_mem _ hu))]

theorem cleanup_loop_deleted_old (now : Nat) (rm : String → Bool)
    (l : List (String × Nat)) (n : String)
    (h : n ∈ (cleanup_loop now rm l).1) :
    ∃ g ∈ l, g.1 = n ∧ isOld now g = true := by
  induction l with
  | nil => cases h
  | cons f rest ih =>
    rw [cleanup_loop] at h
    by_cases ho : isOld now f = true
    · rw [if_pos ho] at h
      by_cases hr : rm f.1 = true
      · rw [if_pos hr] at h
        rcases List.mem_cons.mp h with rfl | h2
        · exact ⟨f, List.mem_cons_self _ _, rfl, ho⟩
        · obtain ⟨g, hg, hgn, hgo⟩ := ih h2
          exact ⟨g, List.mem_cons_of_mem _ hg, hgn, hgo⟩
      · rw [if_neg hr] at h
        cases h
    · rw [if_neg ho] at h
      obtain ⟨g, hg, hgn, hgo⟩ := ih h
      exact ⟨g, List.mem_cons_of_mem _ hg, hgn, hgo⟩

theorem run_tables_all_ok (p : String → List Event × Except String Unit)
    (ts : List String) (h : ∀ t ∈ ts, (p t).2 = .ok ()) :
    (run_tables p ts).2 = .ok () := by
  induction ts with
  | nil => rfl
  | cons t rest ih =>
    rcases hpt : p t with ⟨evs, r⟩
    have ht := h t (List.mem_cons_self _ _)
    rw [hpt] at ht
    simp only at ht
    subst ht
    simp only [run_tables, hpt]
    exact ih (fun u hu => h u (List.mem_cons_of_mem _ hu))

/-- C7 counterexample: the janitor does NOT delete every file older than
seven days.  The sweep only globs `*.json`; a stale `old.txt` in the
dumps directory — here more than 115 days old — is left in place. -/
theorem janitor_ignores_non_json :
    cleanup_old_files 10000000 [("old.txt", 0)] (fun _ => true)
      = ([], none) ∧
    isOld 10000000 ("old.txt", 0) = true :=
  ⟨rfl, rfl⟩

/-- C7 amended: the janitor considers only the files matching `*.json`;
among those — when every deletion succeeds — it deletes exactly the files
whose modification time is more than seven days before the sweep time and
leaves the newer ones untouched; and any file it ever deletes (whatever
the deletion outcomes) is an old `*.json` file. -/
theorem janitor_deletes_exactly_old_json (now : Nat)
    (files : List (String × Nat)) :
    cleanup_old_files now files (fun _ => true)
      = ((files.filter
            (fun f => isOld now f && globJson f.1)).map Prod.fst,
         none) ∧
    (∀ rm : String → Bool, ∀ n ∈ (cleanup_old_files now files rm).1,
      ∃ g ∈ files, g.1 = n ∧ globJson g.1 = true ∧
        isOld now g = true) := by
  constructor
  · rw [cleanup_old_files, cleanup_loop_all_ok now _ _ (fun _ _ _ => rfl),
      List.filter_filter]
  · intro rm n hn
    rw [cleanup_old_files] at hn
    obtain ⟨g, hg, hgn, hgo⟩ := cleanup_loop_deleted_old now rm _ n hn
    have hg2 := List.mem_filter.mp hg
    exact ⟨g, hg2.1, hgn, hg2.2, hgo⟩

/-- Witness for the amended C7 theorem: with one stale and one fresh
artifact, only the stale one is deleted, and the deleted name is certified
to come from a stale `*.json` file. -/
theorem janitor_deletes_exactly_old_json_witness :
    cleanup_old_files 10000000 [("a.json", 0), ("b.json", 9999999)]
        (fun _ => true)
      = (([("a.json", 0), ("b.json", 9999999)].filter
            (fun f => isOld 10000000 f && globJson f.1)).map Prod.fst,
         none) ∧
    ∃ g ∈ [("a.json", (0 : Nat)), ("b.json", 9999999)], g.1 = "a.json" ∧
      globJson g.1 = true ∧ isOld 10000000 g = true :=
  ⟨(janitor_deletes_exactly_old_json 10000000
      [("a.json", 0), ("b.json", 9999999)]).1,
    (janitor_deletes_exactly_old_json 10000000
      [("a.json", 0), ("b.json", 9999999)]).2
      (fun _ => true) "a.json" (by decide)⟩

/-- C8 counterexample: a failed deletion DOES abort the sweep of the
remaining files.  Both artifacts are eligible, deleting the first fails,
and the loop's surrounding `try/except` swallows the error without ever
reaching the second: nothing is deleted. -/
theorem janitor_failure_aborts_rest :
    cleanup_old_files 10000000 [("a.json", 0), ("b.json", 0)]
        (fun n => !(n == "a.json"))
      = ([], some "a.json") ∧
    isOld 10000000 ("b.json", 0) = true :=
  ⟨rfl, rfl⟩

/-- C8 amended: a failure to delete a file is caught and logged (returned
as swept-up data, never re-raised) and is never fatal to the run — a run
whose tables all succeed still ends in `ok` whatever the deletion
outcomes — but it does abort the remainder of the sweep: exactly the old
`*.json` files BEFORE the failing one are deleted, and the files after it
are not examined. -/
theorem janitor_failure_nonfatal (now : Nat) (rm : String → Bool)
    (pre post : List (String × Nat)) (f : String × Nat)
    (hjson : ∀ g ∈ pre, globJson g.1 = true)
    (hjf : globJson f.1 = true)
    (hpre : ∀ g ∈ pre, isOld now g = true → rm g.1 = true)
    (hf : isOld now f = true) (hrm : rm f.1 = false) :
    cleanup_old_files now (pre ++ f :: post) rm
      = ((pre.filter (isOld now)).map Prod.fst, some f.1) ∧
    (∀ (envT : EnvTi) (is_daily : Bool),
      (∀ t ∈ get_mysql_tables_ti envT,
        (processTable_ti envT is_daily t).2 = .ok ()) →
      (run_etl_ti envT is_daily).2 = .ok ()) := by
  constructor
  · rw [cleanup_old_files, List.filter_append, List.filter_cons, if_pos hjf,
      List.filter_eq_self.mpr hjson]
    exact cleanup_loop_abort now rm pre _ f hpre hf hrm
  · intro envT is_daily hok
    rw [run_etl_ti]
    rcases hr : run_tables (processTable_ti envT is_daily)
        (get_mysql_tables_ti envT) with ⟨evs, r⟩
    have h2 := run_tables_all_ok (processTable_ti envT is_daily)
      (get_mysql_tables_ti envT) hok
    rw [hr] at h2
    simp only at h2
    subst h2
    rfl

/-- Witness for the amended C8 theorem: deleting the stale `a.json` fails,
so the equally stale `b.json` after it survives the sweep. -/
theorem janitor_failure_nonfatal_witness :
    cleanup_old_files 10000000 [("a.json", 0), ("b.json", 0)]
        (fun n => !(n == "a.json"))
      = (([] : List (String × Nat)).map Prod.fst, some "a.json") :=
  ((janitor_failure_nonfatal 10000000 (fun n => !(n == "a.json"))
      [] [("b.json", 0)] ("a.json", 0)
      (fun g hg => absurd hg (List.not_mem_nil g))
      rfl (fun g hg => absurd hg (List.not_mem_nil g)) rfl rfl).1).trans
    (by rw [List.filter_nil])

/-- C9 counterexample: in `ti_db_inventory_to_BQ.py` the staging artifact
of a non-empty successfully loaded batch is an OS-generated temp file
whose name incorporates NEITHER the run date (here `2025-03-07`) NOR the
table name (`daily_log`): neither occurs in the written path. -/
theorem ti_staging_name_lacks_date_and_table :
    Event.stagingWrite "daily_log" "/tmp/tmpw8r2xq1z.json"
        [("BackupDate", [Value.vStr "2025-03-06 01:00:00"])] ∈
      (load_to_bigquery_ti envC9
        [("BackupDate", [Value.vStr "2025-03-06 01:00:00"])]
        "daily_log" true).1 ∧
    (load_to_bigquery_ti envC9
        [("BackupDate", [Value.vStr "2025-03-06 01:00:00"])]
        "daily_log" true).2 = .ok () ∧
    ¬ List.IsInfix "daily_log".data "/tmp/tmpw8r2xq1z.json".data ∧
    ¬ List.IsInfix "2025-03-07".data "/tmp/tmpw8r2xq1z.json".data := by
  refine ⟨by decide, rfl, by decide, by decide⟩

/-- C9 amended: in `etl_mysql_to_bigquery.py` and `etl_daily_log.py` the
staging artifact name does incorporate both the run date and the table
name, and distinct (same-format) dates or distinct tables give distinct
paths; in `ti_db_inventory_to_BQ.py` the artifact name is the OS-generated
temp stem plus `.json`, incorporating neither, with collision-freedom
resting solely on distinctness of the generated stems. -/
theorem artifact_name_uniqueness (d1 d2 t1 t2 stem1 stem2 : String)
    (hlen : d1.length = d2.length) :
    List.IsInfix d1.data (etl_artifact_name d1 t1).data ∧
    List.IsInfix t1.data (etl_artifact_name d1 t1).data ∧
    List.IsInfix d1.data (hist_artifact_name d1 t1).data ∧
    List.IsInfix t1.data (hist_artifact_name d1 t1).data ∧
    (etl_artifact_name d1 t1 = etl_artifact_name d2 t2 → d1 = d2 ∧ t1 = t2) ∧
    (hist_artifact_name d1 t1 = hist_artifact_name d2 t2 → d1 = d2 ∧ t1 = t2) ∧
    (ti_artifact_name stem1 = ti_artifact_name stem2 → stem1 = stem2) := by
  refine ⟨?_, ?_, ?_, ?_, ?_, ?_, ?_⟩
  · exact ⟨"mysql_to_bq_".data, ("_" ++ t1 ++ ".json").data, by
      simp [etl_artifact_name, String.data_append, List.append_assoc]⟩
  · exact ⟨("mysql_to_bq_" ++ d1 ++ "_").data, ".json".data, by
      simp [etl_artifact_name, String.data_append, List.append_assoc]⟩
  · exact ⟨"mysql_to_bq_historical_".data, ("_" ++ t1 ++ ".json").data, by
      simp [hist_artifact_name, String.data_append, List.append_assoc]⟩
  · exact ⟨("mysql_to_bq_historical_" ++ d1 ++ "_").data, ".json".data, by
      simp [hist_artifact_name, String.data_append, List.append_assoc]⟩
  · intro h
    have hd : ("mysql_to_bq_".data ++ d1.data)
          ++ ("_".data ++ (t1.data ++ ".json".data))
        = ("mysql_to_bq_".data ++ d2.data)
          ++ ("_".data ++ (t2.data ++ ".json".data)) := by
      have := congrArg String.data h
      simpa [etl_artifact_name, String.data_append, List.append_assoc] using this
    have hfst := List.append_inj hd (by simp [hlen])
    have hd12 : d1 = d2 :=
      String.ext (List.append_cancel_left hfst.1)
    have ht12 : t1 = t2 :=
      String.ext (List.append_cancel_right
        (List.append_cancel_left (hfst.2.trans rfl)))
    exact ⟨hd12, ht12⟩
  · intro h
    have hd : ("mysql_to_bq_historical_".data ++ d1.data)
          ++ ("_".data ++ (t1.data ++ ".json".data))
        = ("mysql_to_bq_historical_".data ++ d2.data)
          ++ ("_".data ++ (t2.data ++ ".json".data)) := by
      have := congrArg String.data h
      simpa [hist_artifact_name, String.data_append, List.append_assoc] using this
    have hfst := List.append_inj hd (by simp [hlen])
    have hd12 : d1 = d2 :=
      String.ext (List.append_cancel_left hfst.1)
    have ht12 : t1 = t2 :=
      String.ext (List.append_cancel_right
        (List.append_cancel_left (hfst.2.trans rfl)))
    exact ⟨hd12, ht12⟩
  · intro h
    have := congrArg String.data h
    rw [ti_artifact_name, ti_artifact_name, String.data_append,
      String.data_append] at this
    exact String.ext (List.append_cancel_right this)

/-- Witness for the amended C9 theorem: the run date occurs inside a
concrete etl staging path. -/
theorem artifact_name_uniqueness_witness :
    List.IsInfix "2025-03-07".data
      (etl_artifact_name "2025-03-07" "daily_log").data :=
  (artifact_name_uniqueness "2025-03-07" "2025-03-07" "daily_log"
    "daily_log" "s" "s" rfl).1

end ETL
